import Mathlib

/-!
# CSS selector builder of `src/05-objects-tasks.js`

A shallow embedding of the classes `MySuperBaseElementSelector` and
`CreateSelectors` and of the facade object `cssSelectorBuilder`.

* JavaScript strings are Lean `String`s; a template literal is a chain of `++`.
* A method of the builder mutates `this` and either returns `this` or throws.
  Its embedding takes the fields of the object before the call and returns an
  `Outcome`: the fields after the call and the message of the thrown `Error`,
  if any.
* `new` either yields the constructed object or propagates the throw of the
  constructor: `Except String _`.
* Objects that are shared by reference live in a `Heap`; a reference is a
  position in it.
* The numbers of `Rectangle` are JavaScript numbers with integer values: the
  integers binary64 holds exactly; `*` is the exact product rounded to binary64.
-/

namespace ObjectsTasks

/-! ## The simple selector -/

/-- Message of the `Error` thrown when a fragment arrives out of order. -/
def orderError : String :=
  "Selector parts should be arranged in the following order: element, id, class, attribute, pseudo-class, pseudo-element"

/-- Message of the `Error` thrown when a singleton fragment arrives twice. -/
def duplicateError : String :=
  "Element, id and pseudo-element should not occur more then one time inside the selector"

/-- Fields of a `MySuperBaseElementSelector` object. -/
structure MySuperBaseElementSelector where
  elementString : String
  idString : String
  classString : String
  attrString : String
  pseudoClassString : String
  pseudoElementString : String
deriving DecidableEq, Repr

/-- Result of a method call on a builder object: `self` holds the fields of the
object after the call, `thrown` the message of the `Error` the call threw
(`none` when it returned `this`). -/
structure Outcome where
  self : MySuperBaseElementSelector
  thrown : Option String
deriving DecidableEq, Repr

/-- The test `x === undefined` on a field. Every field is assigned a string by
the constructor and by each method, so the test is never true. -/
def isUndefined (_ : String) : Bool := false

namespace MySuperBaseElementSelector

/-- Method `element(value)`, lines 140-152. -/
def element (self : MySuperBaseElementSelector) (value : String) : Outcome :=
  if self.idString ≠ "" ∨ self.classString ≠ "" ∨ self.attrString ≠ ""
      ∨ self.pseudoClassString ≠ "" ∨ self.pseudoElementString ≠ "" then
    ⟨self, some orderError⟩
  else if isUndefined self.elementString = true ∨ self.elementString = "" then
    ⟨{ self with elementString := value }, none⟩
  else if isUndefined self.elementString ≠ true ∨ self.elementString ≠ "" then
    ⟨self, some duplicateError⟩
  else
    ⟨self, none⟩

/-- Method `id(value)`, lines 154-166. -/
def id (self : MySuperBaseElementSelector) (value : String) : Outcome :=
  if self.classString ≠ "" ∨ self.attrString ≠ ""
      ∨ self.pseudoClassString ≠ "" ∨ self.pseudoElementString ≠ "" then
    ⟨self, some orderError⟩
  else if isUndefined self.idString = true ∨ self.idString = "" then
    ⟨{ self with idString := "#" ++ value }, none⟩
  else if isUndefined self.idString ≠ true ∨ self.idString ≠ "" then
    ⟨self, some duplicateError⟩
  else
    ⟨self, none⟩

/-- Method `class(value)`, lines 168-178. -/
def «class» (self : MySuperBaseElementSelector) (value : String) : Outcome :=
  if self.attrString ≠ "" ∨ self.pseudoClassString ≠ "" ∨ self.pseudoElementString ≠ "" then
    ⟨self, some orderError⟩
  else if isUndefined self.classString = true ∨ self.classString = "" then
    ⟨{ self with classString := "." ++ value }, none⟩
  else
    ⟨{ self with classString := self.classString ++ "." ++ value }, none⟩

/-- Method `attr(value)`, lines 180-190. -/
def attr (self : MySuperBaseElementSelector) (value : String) : Outcome :=
  if self.pseudoClassString ≠ "" ∨ self.pseudoElementString ≠ "" then
    ⟨self, some orderError⟩
  else if isUndefined self.attrString = true ∨ self.attrString = "" then
    ⟨{ self with attrString := "[" ++ value ++ "]" }, none⟩
  else
    ⟨{ self with attrString := self.attrString ++ "." ++ value }, none⟩

/-- Method `pseudoClass(value)`, lines 192-202. -/
def pseudoClass (self : MySuperBaseElementSelector) (value : String) : Outcome :=
  if self.pseudoElementString ≠ "" then
    ⟨self, some orderError⟩
  else if isUndefined self.pseudoClassString = true ∨ self.pseudoClassString = "" then
    ⟨{ self with pseudoClassString := ":" ++ value }, none⟩
  else
    ⟨{ self with pseudoClassString := self.pseudoClassString ++ ":" ++ value }, none⟩

/-- Method `pseudoElement(value)`, lines 204-213. -/
def pseudoElement (self : MySuperBaseElementSelector) (value : String) : Outcome :=
  if isUndefined self.pseudoElementString = true ∨ self.pseudoElementString = "" then
    ⟨{ self with pseudoElementString := "::" ++ value }, none⟩
  else if isUndefined self.pseudoElementString ≠ true ∨ self.pseudoElementString ≠ "" then
    ⟨self, some duplicateError⟩
  else
    ⟨self, none⟩

/-- Method `stringify()`, lines 215-217. -/
def stringify (self : MySuperBaseElementSelector) : String :=
  self.elementString ++ self.idString ++ self.classString ++ self.attrString
    ++ self.pseudoClassString ++ self.pseudoElementString

end MySuperBaseElementSelector

/-- The six method names the facade passes to the constructor as `selector`,
in the order of the stages. -/
inductive Method where
  | element
  | id
  | «class»
  | attr
  | pseudoClass
  | pseudoElement
deriving DecidableEq, Repr

/-- Position of a fragment kind in the order element, id, class, attribute,
pseudo-class, pseudo-element. -/
def Method.stage : Method → Nat
  | .element => 0
  | .id => 1
  | .«class» => 2
  | .attr => 3
  | .pseudoClass => 4
  | .pseudoElement => 5

/-- The characters a method writes in front of the value when its slot is
empty: nothing for the tag, `#`, `.`, `[`, `:` and `::`. -/
def Method.mark : Method → String
  | .element => ""
  | .id => "#"
  | .«class» => "."
  | .attr => "["
  | .pseudoClass => ":"
  | .pseudoElement => "::"

/-- One append call: the method name and the argument. -/
structure Call where
  method : Method
  value : String
deriving DecidableEq, Repr

namespace MySuperBaseElementSelector

/-- The dynamic call `this[selector](value)`. -/
def invoke (self : MySuperBaseElementSelector) (selector : Method) (value : String) : Outcome :=
  match selector with
  | .element => self.element value
  | .id => self.id value
  | .«class» => self.«class» value
  | .attr => self.attr value
  | .pseudoClass => self.pseudoClass value
  | .pseudoElement => self.pseudoElement value

/-- The constructor, lines 130-138: all six fields start as the empty string,
then the method named `selector` runs on the new object. -/
def constructor (selector : Method) (value : String) : Except String MySuperBaseElementSelector :=
  let this : MySuperBaseElementSelector := ⟨"", "", "", "", "", ""⟩
  let o := this.invoke selector value
  match o.thrown with
  | none => .ok o.self
  | some e => .error e

/-- The field that holds the fragments of one kind. -/
def slot (self : MySuperBaseElementSelector) : Method → String
  | .element => self.elementString
  | .id => self.idString
  | .«class» => self.classString
  | .attr => self.attrString
  | .pseudoClass => self.pseudoClassString
  | .pseudoElement => self.pseudoElementString

/-- A fluent chain `b.m₁(v₁).m₂(v₂)…` on the object `b`: each call runs on the
object the previous one returned; the first throw ends the chain. -/
def chain (self : MySuperBaseElementSelector) : List Call → Outcome
  | [] => ⟨self, none⟩
  | c :: rest =>
    match (self.invoke c.method c.value).thrown with
    | none => (self.invoke c.method c.value).self.chain rest
    | some e => ⟨(self.invoke c.method c.value).self, some e⟩

/-- One call of a client session, see `session`. -/
def sessionStep (acc : MySuperBaseElementSelector × List Call) (c : Call) :
    MySuperBaseElementSelector × List Call :=
  match (acc.1.invoke c.method c.value).thrown with
  | none => ((acc.1.invoke c.method c.value).self, acc.2 ++ [c])
  | some _ => ((acc.1.invoke c.method c.value).self, acc.2)

/-- A client session on the object `b`: the calls run one after another on the
same object, and a call that throws is caught by the client, which goes on with
the object. The result is the object after the session and the calls that
returned without throwing, in call order. -/
def session (self : MySuperBaseElementSelector) (calls : List Call) :
    MySuperBaseElementSelector × List Call :=
  calls.foldl sessionStep (self, [])

end MySuperBaseElementSelector

/-! ## The combined selector -/

/-- Fields of a `CreateSelectors` object. -/
structure CreateSelectors where
  selector1 : String
  selector2 : String
  combinator : String
deriving DecidableEq, Repr

/-- Method `stringify()` of `CreateSelectors`, lines 125-127. -/
def CreateSelectors.stringify (self : CreateSelectors) : String :=
  self.selector1 ++ " " ++ self.combinator ++ " " ++ self.selector2

/-- A selector value: an object of one of the two classes. -/
inductive Selector where
  | simple (s : MySuperBaseElementSelector)
  | combined (c : CreateSelectors)
deriving DecidableEq, Repr

/-- The call `selector.stringify()`, dispatched on the class of the object. -/
def Selector.stringify : Selector → String
  | .simple s => s.stringify
  | .combined c => c.stringify

/-- The constructor of `CreateSelectors`, lines 119-123. -/
def CreateSelectors.constructor (selector1 : Selector) (combinator : String)
    (selector2 : Selector) : CreateSelectors :=
  { selector1 := selector1.stringify
    selector2 := selector2.stringify
    combinator := combinator }

/-! ## The facade -/

namespace cssSelectorBuilder

/-- Facade `element(value)`, lines 220-222. -/
def element (value : String) : Except String MySuperBaseElementSelector :=
  MySuperBaseElementSelector.constructor .element value

/-- Facade `id(value)`, lines 224-226. -/
def id (value : String) : Except String MySuperBaseElementSelector :=
  MySuperBaseElementSelector.constructor .id value

/-- Facade `class(value)`, lines 228-230. -/
def «class» (value : String) : Except String MySuperBaseElementSelector :=
  MySuperBaseElementSelector.constructor .«class» value

/-- Facade `attr(value)`, lines 232-234. -/
def attr (value : String) : Except String MySuperBaseElementSelector :=
  MySuperBaseElementSelector.constructor .attr value

/-- Facade `pseudoClass(value)`, lines 236-238. -/
def pseudoClass (value : String) : Except String MySuperBaseElementSelector :=
  MySuperBaseElementSelector.constructor .pseudoClass value

/-- Facade `pseudoElement(value)`, lines 240-242. -/
def pseudoElement (value : String) : Except String MySuperBaseElementSelector :=
  MySuperBaseElementSelector.constructor .pseudoElement value

/-- Facade `combine(selector1, combinator, selector2)`, lines 244-246. -/
def combine (selector1 : Selector) (combinator : String) (selector2 : Selector) :
    CreateSelectors :=
  CreateSelectors.constructor selector1 combinator selector2

/-- The facade factory that matches the kind of a call. -/
def factory (c : Call) : Except String MySuperBaseElementSelector :=
  match c.method with
  | .element => element c.value
  | .id => id c.value
  | .«class» => «class» c.value
  | .attr => attr c.value
  | .pseudoClass => pseudoClass c.value
  | .pseudoElement => pseudoElement c.value

/-- The expression `cssSelectorBuilder.m₀(v₀).m₁(v₁)…mₙ(vₙ)`: the builder it
evaluates to, or the message of the `Error` it throws. -/
def build (first : Call) (rest : List Call) : Except String MySuperBaseElementSelector :=
  match factory first with
  | .error e => .error e
  | .ok b =>
    match (b.chain rest).thrown with
    | none => .ok (b.chain rest).self
    | some e => .error e

/-- The expression `cssSelectorBuilder.m₀(v₀).m₁(v₁)…mₙ(vₙ).stringify()`: the
string it evaluates to, or the message of the `Error` it throws. -/
def fluent (first : Call) (rest : List Call) : Except String String :=
  match build first rest with
  | .error e => .error e
  | .ok b => .ok b.stringify

end cssSelectorBuilder

/-! ## Objects behind references -/

/-- Message of the `TypeError` of a call to a method the object does not have. -/
def typeError : String := "is not a function"

/-- The object store. A reference to an object is its position in the store. -/
abbrev Heap := List Selector

namespace Heap

/-- The call `r.stringify()` on the object behind the reference `r`. -/
def stringify (h : Heap) (r : Nat) : Option String :=
  h[r]?.map Selector.stringify

/-- The call `cssSelectorBuilder.combine(r1, combinator, r2)` on two references:
the new `CreateSelectors` object is allocated at the end of the store and its
reference is returned. -/
def combine (h : Heap) (r1 : Nat) (combinator : String) (r2 : Nat) : Option (Heap × Nat) :=
  match h[r1]?, h[r2]? with
  | some o1, some o2 =>
    some (h ++ [Selector.combined (cssSelectorBuilder.combine o1 combinator o2)], h.length)
  | _, _ => none

/-- The call `r.m(v)` of an append method on the object behind `r`: a builder
runs the method and its fields are written back; a `CreateSelectors` object has
no such method, so the call throws and the store stays as it is. A reference
outside the store does not occur in a program; the store is left as it is. -/
def invoke (h : Heap) (r : Nat) (c : Call) : Heap × Option String :=
  match h[r]? with
  | some (Selector.simple s) =>
    (h.set r (Selector.simple (s.invoke c.method c.value).self),
      (s.invoke c.method c.value).thrown)
  | some (Selector.combined _) => (h, some typeError)
  | none => (h, some typeError)

/-- A sequence of append calls on references, each throw caught by the client. -/
def session (h : Heap) (calls : List (Nat × Call)) : Heap :=
  calls.foldl (fun acc rc => (acc.invoke rc.1 rc.2).1) h

end Heap

/-! ## The rendering the specification assigns to a list of fragments -/

/-- Concatenation of a list of strings, in order. -/
def concat (l : List String) : String :=
  l.foldl (fun acc x => acc ++ x) ""

/-- The arguments of the calls of one kind, in call order. -/
def valuesOf (m : Method) (calls : List Call) : List String :=
  (calls.filter (fun c => c.method = m)).map Call.value

/-- The tag, `#id`, each class as `.c`, `[attr]`, each pseudo-class as `:p`,
`::pseudoElement`, in this order; a kind without a call renders as the empty
string. -/
def rendering (calls : List Call) : String :=
  concat (valuesOf .element calls)
    ++ concat ((valuesOf .id calls).map (fun v => "#" ++ v))
    ++ concat ((valuesOf .«class» calls).map (fun v => "." ++ v))
    ++ concat ((valuesOf .attr calls).map (fun v => "[" ++ v ++ "]"))
    ++ concat ((valuesOf .pseudoClass calls).map (fun v => ":" ++ v))
    ++ concat ((valuesOf .pseudoElement calls).map (fun v => "::" ++ v))

/-- The six renderings of `rendering`, each in the slot of its kind. -/
def fragments (calls : List Call) : MySuperBaseElementSelector :=
  { elementString := concat (valuesOf .element calls)
    idString := concat ((valuesOf .id calls).map (fun v => "#" ++ v))
    classString := concat ((valuesOf .«class» calls).map (fun v => "." ++ v))
    attrString := concat ((valuesOf .attr calls).map (fun v => "[" ++ v ++ "]"))
    pseudoClassString := concat ((valuesOf .pseudoClass calls).map (fun v => ":" ++ v))
    pseudoElementString := concat ((valuesOf .pseudoElement calls).map (fun v => "::" ++ v)) }

/-! ## `stringify()` as a method call -/

/-- The call `stringify()` on a builder, lines 215-217, as a method call on an
object: the fields of the object after the call and the returned string. The
body is one `return` of a template literal over the fields; it assigns
nothing. -/
def MySuperBaseElementSelector.stringifyCall (self : MySuperBaseElementSelector) :
    MySuperBaseElementSelector × String :=
  (self, self.stringify)

/-- The call `stringify()` on a combined selector, lines 125-127, as a method
call on an object: the fields after the call and the returned string. -/
def CreateSelectors.stringifyCall (self : CreateSelectors) : CreateSelectors × String :=
  (self, self.stringify)

/-- The call `selector.stringify()` as a method call, dispatched on the class of
the object. -/
def Selector.stringifyCall : Selector → Selector × String
  | .simple s => (.simple s.stringifyCall.1, s.stringifyCall.2)
  | .combined c => (.combined c.stringifyCall.1, c.stringifyCall.2)

/-! ## The rectangle -/

/-- Number of low bits of `m` that do not fit in the 53 bits of a binary64
significand: the least `e` with `m / 2 ^ e < 2 ^ 53`. The first argument bounds
the number of halvings; `m` itself is always enough (`excessBits_self_fits`). -/
def excessBits : Nat → Nat → Nat
  | 0, _ => 0
  | fuel + 1, m => if m < 2 ^ 53 then 0 else excessBits fuel (m / 2) + 1

/-- Rounding of a natural number to the nearest one with a 53-bit significand,
a tie going to the even significand (IEEE-754 roundTiesToEven), before the
exponent range is applied. -/
def roundMagnitude (m : Nat) : Nat :=
  let e := excessBits m m
  let q := m / 2 ^ e
  let r := m % 2 ^ e
  if 2 * r > 2 ^ e ∨ (2 * r = 2 ^ e ∧ q % 2 = 1) then (q + 1) * 2 ^ e else q * 2 ^ e

/-- Rounding of an integer to binary64 precision; the rounding is the same on
both sides of zero. -/
def roundToDouble (n : Int) : Int :=
  if 0 ≤ n then (roundMagnitude n.natAbs : Int) else -(roundMagnitude n.natAbs : Int)

/-- The number `2 ^ 1024`: a rounded magnitude at or above it is not finite in
binary64. -/
def overflowBound : Nat := 2 ^ 256 * 2 ^ 256 * 2 ^ 256 * 2 ^ 256

/-- A JavaScript number whose value is an integer: an integer that binary64
holds exactly. The number `-0` is the integer `0`. -/
structure IntegerNumber where
  value : Int
  isExact : roundToDouble value = value
  isFinite : value.natAbs < overflowBound
deriving DecidableEq

/-- The result of `*` on two numbers with integer values: a number with an
integer value, or `Infinity` or `-Infinity`. -/
inductive ProductValue where
  | finite (value : Int)
  | infinity (negative : Bool)
deriving DecidableEq, Repr

/-- The operator `*` of line 27 on two numbers with integer values: the exact
product rounded to binary64. -/
def multiply (a b : IntegerNumber) : ProductValue :=
  if (roundToDouble (a.value * b.value)).natAbs < overflowBound then
    .finite (roundToDouble (a.value * b.value))
  else
    .infinity (decide (roundToDouble (a.value * b.value) < 0))

/-- Fields `width` and `height` of a `Rectangle` object, for numbers with
integer values. -/
structure Rectangle where
  width : IntegerNumber
  height : IntegerNumber
deriving DecidableEq

/-- The constructor `Rectangle(width, height)`, lines 24-28. -/
def Rectangle.constructor (width height : IntegerNumber) : Rectangle :=
  { width := width, height := height }

/-- The arrow function `getArea`, line 27: its `this` is the constructed object,
and the two fields are read when it is called. -/
def Rectangle.getArea (self : Rectangle) : ProductValue :=
  multiply self.width self.height

/-- The number `10` of the docstring example. -/
def ten : IntegerNumber := ⟨10, by decide, by decide⟩

/-- The number `20` of the docstring example. -/
def twenty : IntegerNumber := ⟨20, by decide, by decide⟩

/-- The number `94906267`, whose square `9007199515875289` is above `2 ^ 53`
and odd. -/
def wide : IntegerNumber := ⟨94906267, by decide, by decide⟩

/-! ## Facts about strings -/

theorem eq_empty_iff_length (s : String) : s = "" ↔ s.length = 0 := by
  constructor
  · intro h; subst h; rfl
  · intro h
    apply String.ext
    exact List.length_eq_zero.mp h

theorem append_ne_empty_of_left {s : String} (t : String) (h : s ≠ "") : s ++ t ≠ "" := by
  intro e
  have hs : s.length ≠ 0 := fun hl => h ((eq_empty_iff_length s).mpr hl)
  have he := (eq_empty_iff_length (s ++ t)).mp e
  rw [String.length_append] at he
  omega

theorem append_ne_empty_of_right (s : String) {t : String} (h : t ≠ "") : s ++ t ≠ "" := by
  intro e
  have ht : t.length ≠ 0 := fun hl => h ((eq_empty_iff_length t).mpr hl)
  have he := (eq_empty_iff_length (s ++ t)).mp e
  rw [String.length_append] at he
  omega

/-! ## The facade factories -/

/-- C8: each of the six facade factories returns, without throwing, a builder
that holds the one fragment in its slot and the empty string in the five other
slots, and the builder stringifies to that one fragment. -/
theorem factories_fresh_single_fragment (v : String) :
    (cssSelectorBuilder.element v = .ok ⟨v, "", "", "", "", ""⟩
      ∧ cssSelectorBuilder.id v = .ok ⟨"", "#" ++ v, "", "", "", ""⟩
      ∧ cssSelectorBuilder.«class» v = .ok ⟨"", "", "." ++ v, "", "", ""⟩
      ∧ cssSelectorBuilder.attr v = .ok ⟨"", "", "", "[" ++ v ++ "]", "", ""⟩
      ∧ cssSelectorBuilder.pseudoClass v = .ok ⟨"", "", "", "", ":" ++ v, ""⟩
      ∧ cssSelectorBuilder.pseudoElement v = .ok ⟨"", "", "", "", "", "::" ++ v⟩)
    ∧ (cssSelectorBuilder.fluent ⟨.element, v⟩ [] = .ok v
      ∧ cssSelectorBuilder.fluent ⟨.id, v⟩ [] = .ok ("#" ++ v)
      ∧ cssSelectorBuilder.fluent ⟨.«class», v⟩ [] = .ok ("." ++ v)
      ∧ cssSelectorBuilder.fluent ⟨.attr, v⟩ [] = .ok ("[" ++ v ++ "]")
      ∧ cssSelectorBuilder.fluent ⟨.pseudoClass, v⟩ [] = .ok (":" ++ v)
      ∧ cssSelectorBuilder.fluent ⟨.pseudoElement, v⟩ [] = .ok ("::" ++ v)) := by
  refine ⟨⟨rfl, rfl, rfl, rfl, rfl, rfl⟩, ?_, ?_, ?_, ?_, ?_, ?_⟩ <;>
    simp [cssSelectorBuilder.fluent, cssSelectorBuilder.factory, cssSelectorBuilder.element,
      cssSelectorBuilder.id, cssSelectorBuilder.«class», cssSelectorBuilder.attr,
      cssSelectorBuilder.pseudoClass, cssSelectorBuilder.pseudoElement,
      MySuperBaseElementSelector.constructor, MySuperBaseElementSelector.invoke,
      MySuperBaseElementSelector.element, MySuperBaseElementSelector.id,
      MySuperBaseElementSelector.«class», MySuperBaseElementSelector.attr,
      MySuperBaseElementSelector.pseudoClass, MySuperBaseElementSelector.pseudoElement,
      MySuperBaseElementSelector.chain, MySuperBaseElementSelector.stringify,
      cssSelectorBuilder.build]

/-! ## Combination -/

/-- C3: `combine(s1, c, s2).stringify()` is `s1.stringify()`, a space, the
combinator, a space, `s2.stringify()`, for every two selector values and every
combinator; with the combinator `" "` there are three spaces between the
operands, and `combine(element('div'), '+', element('table'))` gives
`'div + table'`. -/
theorem combine_stringify (s1 s2 : Selector) (c : String) :
    (cssSelectorBuilder.combine s1 c s2).stringify
        = s1.stringify ++ " " ++ c ++ " " ++ s2.stringify
      ∧ (cssSelectorBuilder.combine s1 " " s2).stringify
        = s1.stringify ++ "   " ++ s2.stringify
      ∧ (cssSelectorBuilder.combine (.simple ⟨"div", "", "", "", "", ""⟩) "+"
          (.simple ⟨"table", "", "", "", "", ""⟩)).stringify = "div + table"
      ∧ cssSelectorBuilder.element "div" = .ok ⟨"div", "", "", "", "", ""⟩
      ∧ cssSelectorBuilder.element "table" = .ok ⟨"table", "", "", "", "", ""⟩ := by
  refine ⟨rfl, ?_, rfl, rfl, rfl⟩
  show s1.stringify ++ " " ++ " " ++ " " ++ s2.stringify = s1.stringify ++ "   " ++ s2.stringify
  simp only [String.append_assoc]
  rfl

/-- C9: a combination nested as right operand composes by string:
`combine(A, c1, combine(B, c2, C)).stringify()` is `A.stringify()`, `c1` between
two spaces, then `B.stringify()`, `c2` between two spaces, `C.stringify()`; the
nested example of the docstring stringifies to the string given there. -/
theorem nested_combine_stringify (A B C : Selector) (c1 c2 : String) :
    (cssSelectorBuilder.combine A c1
        (.combined (cssSelectorBuilder.combine B c2 C))).stringify
        = A.stringify ++ " " ++ c1 ++ " "
            ++ (B.stringify ++ " " ++ c2 ++ " " ++ C.stringify)
      ∧ cssSelectorBuilder.build ⟨.element, "div"⟩
          [⟨.id, "main"⟩, ⟨.«class», "container"⟩, ⟨.«class», "draggable"⟩]
          = .ok ⟨"div", "#main", ".container.draggable", "", "", ""⟩
      ∧ cssSelectorBuilder.build ⟨.element, "table"⟩ [⟨.id, "data"⟩]
          = .ok ⟨"table", "#data", "", "", "", ""⟩
      ∧ cssSelectorBuilder.build ⟨.element, "tr"⟩ [⟨.pseudoClass, "nth-of-type(even)"⟩]
          = .ok ⟨"tr", "", "", "", ":nth-of-type(even)", ""⟩
      ∧ cssSelectorBuilder.build ⟨.element, "td"⟩ [⟨.pseudoClass, "nth-of-type(even)"⟩]
          = .ok ⟨"td", "", "", "", ":nth-of-type(even)", ""⟩
      ∧ (cssSelectorBuilder.combine
          (.simple ⟨"div", "#main", ".container.draggable", "", "", ""⟩) "+"
          (.combined (cssSelectorBuilder.combine
            (.simple ⟨"table", "#data", "", "", "", ""⟩) "~"
            (.combined (cssSelectorBuilder.combine
              (.simple ⟨"tr", "", "", "", ":nth-of-type(even)", ""⟩) " "
              (.simple ⟨"td", "", "", "", ":nth-of-type(even)", ""⟩)))))).stringify
          = "div#main.container.draggable + table#data ~ tr:nth-of-type(even)   td:nth-of-type(even)" :=
  ⟨rfl, rfl, rfl, rfl, rfl, rfl⟩

/-! ## Attributes -/

/-- C7, the code at two attr calls: the second call appends `.` and the value
without brackets, so `attr(a1).attr(a2)` stringifies to `[a1].a2`; at
`attr('a').attr('b')` the string is `[a].b` and not `[a].[b]`. -/
theorem attr_twice_drops_brackets :
    (∀ a1 a2 : String, cssSelectorBuilder.fluent ⟨.attr, a1⟩ [⟨.attr, a2⟩]
        = .ok ("[" ++ a1 ++ "]" ++ "." ++ a2))
      ∧ cssSelectorBuilder.fluent ⟨.attr, "a"⟩ [⟨.attr, "b"⟩] = .ok "[a].b"
      ∧ cssSelectorBuilder.fluent ⟨.attr, "a"⟩ [⟨.attr, "b"⟩] ≠ .ok "[a].[b]" := by
  have h : cssSelectorBuilder.fluent ⟨.attr, "a"⟩ [⟨.attr, "b"⟩] = .ok "[a].b" := rfl
  refine ⟨?_, h, ?_⟩
  · intro a1 a2
    have hne : ¬ ("[" ++ a1 ++ "]" = "") :=
      append_ne_empty_of_right _ (by decide)
    simp [cssSelectorBuilder.fluent, cssSelectorBuilder.build, cssSelectorBuilder.factory,
      cssSelectorBuilder.attr, MySuperBaseElementSelector.constructor,
      MySuperBaseElementSelector.invoke, MySuperBaseElementSelector.attr,
      MySuperBaseElementSelector.chain, MySuperBaseElementSelector.stringify, isUndefined, hne]
  · rw [h]
    intro e
    exact absurd (Except.ok.inj e) (by decide)

/-! ## The element tag -/

/-- C5, refuted at `element('').element('a')`: the first call leaves the tag
empty, the second call returns without throwing and sets the tag to `a`. -/
theorem element_after_empty_element_succeeds :
    ∃ b, cssSelectorBuilder.element "" = .ok b
      ∧ (b.element "a").thrown = none
      ∧ (b.element "a").self.elementString = "a" :=
  ⟨⟨"", "", "", "", "", ""⟩, rfl, rfl, rfl⟩

/-- C5, amended: on the builder returned by `cssSelectorBuilder.element(v)` with
`v` not empty, `element(w)` throws the duplicate error for every `w` and leaves
every field as it was, the tag still `v`. -/
theorem element_twice_fails (v w : String) (hv : v ≠ "") (b : MySuperBaseElementSelector)
    (hb : cssSelectorBuilder.element v = .ok b) :
    (b.element w).thrown = some duplicateError
      ∧ (b.element w).self = b
      ∧ (b.element w).self.elementString = v := by
  have hb' : b = ⟨v, "", "", "", "", ""⟩ := by
    have h0 : cssSelectorBuilder.element v = .ok ⟨v, "", "", "", "", ""⟩ := rfl
    rw [h0] at hb
    exact (Except.ok.inj hb).symm
  subst hb'
  simp [MySuperBaseElementSelector.element, isUndefined, hv]

theorem element_twice_fails_witness :
    (cssSelectorBuilder.element "a" = .ok ⟨"a", "", "", "", "", ""⟩)
      ∧ (MySuperBaseElementSelector.element ⟨"a", "", "", "", "", ""⟩ "b").thrown
          = some duplicateError
      ∧ (MySuperBaseElementSelector.element ⟨"a", "", "", "", "", ""⟩ "b").self
          = ⟨"a", "", "", "", "", ""⟩
      ∧ (MySuperBaseElementSelector.element ⟨"a", "", "", "", "", ""⟩ "b").self.elementString
          = "a" :=
  ⟨rfl, element_twice_fails "a" "b" (by decide) ⟨"a", "", "", "", "", ""⟩ rfl⟩


theorem append_eq_empty_iff (s t : String) : s ++ t = "" ↔ s = "" ∧ t = "" := by
  constructor
  · intro e
    have he := (eq_empty_iff_length (s ++ t)).mp e
    rw [String.length_append] at he
    exact ⟨(eq_empty_iff_length s).mpr (by omega), (eq_empty_iff_length t).mpr (by omega)⟩
  · rintro ⟨rfl, rfl⟩
    rfl

open MySuperBaseElementSelector in
theorem invoke_thrown_self (self : MySuperBaseElementSelector) (m : Method) (v : String)
    (e : String) (h : (self.invoke m v).thrown = some e) : (self.invoke m v).self = self := by
  cases m <;> simp only [invoke, element, MySuperBaseElementSelector.id, «class», attr, pseudoClass, pseudoElement] at h ⊢ <;>
    split_ifs at h ⊢ <;> simp_all

open MySuperBaseElementSelector in
theorem invoke_slot_ne_empty_iff (self : MySuperBaseElementSelector) (m : Method) (v : String)
    (k : Method) (hk : k ≠ .element) :
    (self.invoke m v).self.slot k ≠ "" ↔
      (self.slot k ≠ "" ∨ (m = k ∧ (self.invoke m v).thrown = none)) := by
  cases m <;> cases k <;>
    simp only [invoke, element, MySuperBaseElementSelector.id, «class», attr, pseudoClass, pseudoElement, slot] <;>
    split_ifs <;> simp_all [append_eq_empty_iff]

open MySuperBaseElementSelector in
theorem sessionStep_tracks (pre : List Call) (acc : MySuperBaseElementSelector × List Call)
    (c : Call)
    (h : ∀ k, k ≠ Method.element → (acc.1.slot k ≠ "" ↔ ∃ x ∈ pre ++ acc.2, x.method = k)) :
    ∀ k, k ≠ Method.element →
      ((sessionStep acc c).1.slot k ≠ "" ↔ ∃ x ∈ pre ++ (sessionStep acc c).2, x.method = k) := by
  intro k hk
  unfold sessionStep
  cases ht : (acc.1.invoke c.method c.value).thrown with
  | none =>
    simp only
    rw [invoke_slot_ne_empty_iff _ _ _ _ hk, h k hk, ht, ← List.append_assoc]
    simp only [List.mem_append, List.mem_singleton, and_true]
    constructor
    · rintro (⟨x, hx, hxk⟩ | hck)
      · exact ⟨x, Or.inl hx, hxk⟩
      · exact ⟨c, Or.inr rfl, hck⟩
    · rintro ⟨x, hx | hx, hxk⟩
      · exact Or.inl ⟨x, hx, hxk⟩
      · exact Or.inr (hx ▸ hxk)
  | some e =>
    simp only
    rw [invoke_thrown_self _ _ _ e ht]
    exact h k hk

open MySuperBaseElementSelector in
theorem foldl_sessionStep_tracks (pre : List Call) (calls : List Call) :
    ∀ acc : MySuperBaseElementSelector × List Call,
      (∀ k, k ≠ Method.element → (acc.1.slot k ≠ "" ↔ ∃ x ∈ pre ++ acc.2, x.method = k)) →
      ∀ k, k ≠ Method.element →
        ((calls.foldl sessionStep acc).1.slot k ≠ ""
          ↔ ∃ x ∈ pre ++ (calls.foldl sessionStep acc).2, x.method = k) := by
  induction calls with
  | nil => intro acc h; exact h
  | cons c rest ih =>
    intro acc h
    rw [List.foldl_cons]
    exact ih _ (sessionStep_tracks pre acc c h)

theorem factory_eq (c : Call) :
    cssSelectorBuilder.factory c
      = .ok ((MySuperBaseElementSelector.mk "" "" "" "" "" "").invoke c.method c.value).self := by
  obtain ⟨m, v⟩ := c
  cases m <;> rfl

theorem factory_thrown (c : Call) :
    ((MySuperBaseElementSelector.mk "" "" "" "" "" "").invoke c.method c.value).thrown = none := by
  obtain ⟨m, v⟩ := c
  cases m <;> rfl

/-- In a builder made by a factory and used in a session, a slot other than the
tag is not empty exactly when a call of its kind has returned without throwing. -/
theorem session_slot_ne_empty_iff (first : Call) (rest : List Call)
    (b : MySuperBaseElementSelector) (hb : cssSelectorBuilder.factory first = .ok b)
    (k : Method) (hk : k ≠ Method.element) :
    (b.session rest).1.slot k ≠ "" ↔ ∃ x ∈ first :: (b.session rest).2, x.method = k := by
  have hb' : b = ((MySuperBaseElementSelector.mk "" "" "" "" "" "").invoke
      first.method first.value).self := by
    rw [factory_eq] at hb
    exact (Except.ok.inj hb).symm
  have h0 : ∀ k, k ≠ Method.element →
      (b.slot k ≠ "" ↔ ∃ x ∈ [first] ++ ([] : List Call), x.method = k) := by
    intro k hk
    rw [hb', invoke_slot_ne_empty_iff _ _ _ _ hk, factory_thrown]
    cases k <;> simp [MySuperBaseElementSelector.slot]
  exact foldl_sessionStep_tracks [first] rest (b, []) h0 k hk

/-! ## Order and duplication -/

/-- C2: in a builder made by a factory and used in any session, once a call of
kind `k'` has returned without throwing (whatever its argument), a call of a
kind `k` strictly earlier in the order element, id, class, attribute,
pseudo-class, pseudo-element throws the order error, whatever slot `k` holds. -/
theorem earlier_kind_after_later_kind_fails (first : Call) (rest : List Call)
    (b : MySuperBaseElementSelector) (hb : cssSelectorBuilder.factory first = .ok b)
    (k k' : Method) (hlt : k.stage < k'.stage) (v' : String)
    (happ : (⟨k', v'⟩ : Call) ∈ first :: (b.session rest).2) (v : String) :
    ((b.session rest).1.invoke k v).thrown = some orderError := by
  have hk' : k' ≠ Method.element := by
    intro e; subst e; simp [Method.stage] at hlt
  have hslot : (b.session rest).1.slot k' ≠ "" :=
    (session_slot_ne_empty_iff first rest b hb k' hk').mpr ⟨⟨k', v'⟩, happ, rfl⟩
  revert hslot
  generalize (b.session rest).1 = s
  intro hslot
  cases k <;> cases k' <;> simp [Method.stage] at hlt <;>
    simp only [MySuperBaseElementSelector.slot] at hslot <;>
    simp [MySuperBaseElementSelector.invoke, MySuperBaseElementSelector.element,
      MySuperBaseElementSelector.id, MySuperBaseElementSelector.«class»,
      MySuperBaseElementSelector.attr, MySuperBaseElementSelector.pseudoClass, hslot]

/-- Witness of C2: `class('x').element('a')`. -/
theorem earlier_kind_after_later_kind_fails_witness :
    cssSelectorBuilder.factory ⟨.«class», "x"⟩ = .ok ⟨"", "", ".x", "", "", ""⟩
      ∧ ((MySuperBaseElementSelector.session ⟨"", "", ".x", "", "", ""⟩ []).1.invoke
          .element "a").thrown = some orderError :=
  ⟨rfl, earlier_kind_after_later_kind_fails ⟨.«class», "x"⟩ [] ⟨"", "", ".x", "", "", ""⟩ rfl
    .element .«class» (by decide) "x" (List.mem_cons_self _ _) "a"⟩

/-- C4: in a builder made by a factory and used in any session, when an id call
has returned without throwing and no class, attribute, pseudo-class or
pseudo-element call has, `id(w)` throws the duplicate error for every `w`. -/
theorem id_twice_fails (first : Call) (rest : List Call)
    (b : MySuperBaseElementSelector) (hb : cssSelectorBuilder.factory first = .ok b)
    (hid : ∃ x ∈ first :: (b.session rest).2, x.method = Method.id)
    (hnone : ∀ x ∈ first :: (b.session rest).2,
      x.method = Method.element ∨ x.method = Method.id) (w : String) :
    ((b.session rest).1.id w).thrown = some duplicateError := by
  have hslot := session_slot_ne_empty_iff first rest b hb
  have h1 : (b.session rest).1.idString ≠ "" := (hslot .id (by decide)).mpr hid
  have hempty : ∀ k, k ≠ Method.element → k ≠ Method.id → (b.session rest).1.slot k = "" := by
    intro k hk1 hk2
    by_contra hne
    obtain ⟨x, hx, hxk⟩ := (hslot k hk1).mp hne
    rcases hnone x hx with h | h
    · exact hk1 (hxk ▸ h)
    · exact hk2 (hxk ▸ h)
  have h2 := hempty .«class» (by decide) (by decide)
  have h3 := hempty .attr (by decide) (by decide)
  have h4 := hempty .pseudoClass (by decide) (by decide)
  have h5 := hempty .pseudoElement (by decide) (by decide)
  simp only [MySuperBaseElementSelector.slot] at h2 h3 h4 h5
  simp [MySuperBaseElementSelector.id, isUndefined, h1, h2, h3, h4, h5]

/-- Witness of C4: `element('a').id('x').id('y')`. -/
theorem id_twice_fails_witness :
    cssSelectorBuilder.factory ⟨.element, "a"⟩ = .ok ⟨"a", "", "", "", "", ""⟩
      ∧ (MySuperBaseElementSelector.session ⟨"a", "", "", "", "", ""⟩ [⟨.id, "x"⟩]).1
          = ⟨"a", "#x", "", "", "", ""⟩
      ∧ ((MySuperBaseElementSelector.session ⟨"a", "", "", "", "", ""⟩ [⟨.id, "x"⟩]).1.id
          "y").thrown = some duplicateError :=
  ⟨rfl, rfl, id_twice_fails ⟨.element, "a"⟩ [⟨.id, "x"⟩] ⟨"a", "", "", "", "", ""⟩ rfl
    ⟨⟨.id, "x"⟩, by decide, rfl⟩ (by decide) "y"⟩

/-- C6: in a builder made by a factory and used in any session,
`pseudoElement(v)` throws exactly when a pseudo-element call has already
returned without throwing, and then it throws the duplicate error; otherwise it
returns the builder with the pseudo-element slot set to `::v` and the other
slots as they were, whatever they hold. -/
theorem pseudoElement_fails_iff_duplicate (first : Call) (rest : List Call)
    (b : MySuperBaseElementSelector) (hb : cssSelectorBuilder.factory first = .ok b)
    (v : String) :
    (((b.session rest).1.pseudoElement v).thrown ≠ none
        ↔ ∃ x ∈ first :: (b.session rest).2, x.method = Method.pseudoElement)
      ∧ ((∃ x ∈ first :: (b.session rest).2, x.method = Method.pseudoElement) →
          ((b.session rest).1.pseudoElement v).thrown = some duplicateError)
      ∧ ((¬ ∃ x ∈ first :: (b.session rest).2, x.method = Method.pseudoElement) →
          (b.session rest).1.pseudoElement v
            = ⟨{ (b.session rest).1 with pseudoElementString := "::" ++ v }, none⟩) := by
  have hslot := session_slot_ne_empty_iff first rest b hb .pseudoElement (by decide)
  simp only [MySuperBaseElementSelector.slot] at hslot
  rw [← hslot]
  by_cases he : (b.session rest).1.pseudoElementString = "" <;>
    simp [MySuperBaseElementSelector.pseudoElement, isUndefined, he]

/-- Witness of C6: `pseudoClass('hover').pseudoElement('after')`. -/
theorem pseudoElement_fails_iff_duplicate_witness :
    cssSelectorBuilder.factory ⟨.pseudoClass, "hover"⟩ = .ok ⟨"", "", "", "", ":hover", ""⟩
      ∧ (MySuperBaseElementSelector.pseudoElement ⟨"", "", "", "", ":hover", ""⟩ "after")
          = ⟨⟨"", "", "", "", ":hover", "::after"⟩, none⟩ :=
  ⟨rfl, ((pseudoElement_fails_iff_duplicate ⟨.pseudoClass, "hover"⟩ []
    ⟨"", "", "", "", ":hover", ""⟩ rfl "after").2.2 (by decide))⟩

/-! ## Fragments in stage order -/

theorem concat_nil : concat [] = "" := rfl

theorem concat_append_singleton (l : List String) (x : String) :
    concat (l ++ [x]) = concat l ++ x := by
  simp [concat, List.foldl_append]

theorem concat_singleton (x : String) : concat [x] = x := by
  simp [concat]

theorem valuesOf_nil (m : Method) : valuesOf m [] = [] := rfl

theorem valuesOf_append_singleton (m : Method) (l : List Call) (c : Call) :
    valuesOf m (l ++ [c]) = valuesOf m l ++ (if c.method = m then [c.value] else []) := by
  unfold valuesOf
  by_cases h : c.method = m <;> simp [List.filter_append, List.filter_cons, h]

theorem valuesOf_eq_nil (m : Method) (l : List Call) (h : ∀ a ∈ l, a.method ≠ m) :
    valuesOf m l = [] := by
  unfold valuesOf
  rw [List.map_eq_nil_iff, List.filter_eq_nil_iff]
  intro a ha
  simpa using h a ha

theorem rendering_eq (calls : List Call) : rendering calls = (fragments calls).stringify := rfl

theorem invoke_fragments (l : List Call) (m : Method) (v : String)
    (hle : ∀ a ∈ l, a.method.stage ≤ m.stage)
    (he : m = Method.element → valuesOf .element l = [])
    (hi : m = Method.id → valuesOf .id l = [])
    (ha : m = Method.attr → valuesOf .attr l = [])
    (hp : m = Method.pseudoElement → valuesOf .pseudoElement l = []) :
    (fragments l).invoke m v = ⟨fragments (l ++ [⟨m, v⟩]), none⟩ := by
  have hnil : ∀ k : Method, m.stage < k.stage → valuesOf k l = [] := by
    intro k hk
    apply valuesOf_eq_nil
    intro a hal e
    have := hle a hal
    rw [e] at this
    omega
  cases m
  · simp [fragments, MySuperBaseElementSelector.invoke, MySuperBaseElementSelector.element,
      valuesOf_append_singleton, concat_append_singleton, concat_nil, concat_singleton, isUndefined,
      he rfl, hnil .id (by decide), hnil .«class» (by decide), hnil .attr (by decide),
      hnil .pseudoClass (by decide), hnil .pseudoElement (by decide)]
  · simp [fragments, MySuperBaseElementSelector.invoke, MySuperBaseElementSelector.id,
      valuesOf_append_singleton, concat_append_singleton, concat_nil, concat_singleton, isUndefined,
      hi rfl, hnil .«class» (by decide), hnil .attr (by decide),
      hnil .pseudoClass (by decide), hnil .pseudoElement (by decide)]
  · simp [fragments, MySuperBaseElementSelector.invoke, MySuperBaseElementSelector.«class»,
      valuesOf_append_singleton, concat_append_singleton, concat_nil, concat_singleton, isUndefined,
      hnil .attr (by decide), hnil .pseudoClass (by decide), hnil .pseudoElement (by decide)]
    split_ifs with h
    · simp [h]
    · simp [String.append_assoc]
  · simp [fragments, MySuperBaseElementSelector.invoke, MySuperBaseElementSelector.attr,
      valuesOf_append_singleton, concat_append_singleton, concat_nil, concat_singleton, isUndefined,
      ha rfl, hnil .pseudoClass (by decide), hnil .pseudoElement (by decide)]
  · simp [fragments, MySuperBaseElementSelector.invoke, MySuperBaseElementSelector.pseudoClass,
      valuesOf_append_singleton, concat_append_singleton, concat_nil, concat_singleton, isUndefined,
      hnil .pseudoElement (by decide)]
    split_ifs with h
    · simp [h]
    · simp [String.append_assoc]
  · simp [fragments, MySuperBaseElementSelector.invoke, MySuperBaseElementSelector.pseudoElement,
      valuesOf_append_singleton, concat_append_singleton, concat_nil, concat_singleton, isUndefined,
      hp rfl]

theorem chain_append (l₁ l₂ : List Call) :
    ∀ self : MySuperBaseElementSelector, (self.chain l₁).thrown = none →
      self.chain (l₁ ++ l₂) = (self.chain l₁).self.chain l₂ := by
  induction l₁ with
  | nil => intro self _; rfl
  | cons c rest ih =>
    intro self h
    simp only [List.cons_append, MySuperBaseElementSelector.chain] at h ⊢
    cases ht : (self.invoke c.method c.value).thrown with
    | none =>
      rw [ht] at h
      simp only at h ⊢
      exact ih _ h
    | some e =>
      rw [ht] at h
      simp at h

theorem chain_fragments (calls : List Call) :
    calls.Pairwise (fun a b => a.method.stage ≤ b.method.stage) →
    (valuesOf .element calls).length ≤ 1 → (valuesOf .id calls).length ≤ 1 →
    (valuesOf .attr calls).length ≤ 1 → (valuesOf .pseudoElement calls).length ≤ 1 →
    (MySuperBaseElementSelector.mk "" "" "" "" "" "").chain calls
      = ⟨fragments calls, none⟩ := by
  induction calls using List.reverseRecOn with
  | nil => intro _ _ _ _ _; rfl
  | append_singleton l c ih =>
    intro hs he hi ha hp
    rw [List.pairwise_append] at hs
    obtain ⟨hsl, -, hle⟩ := hs
    rw [valuesOf_append_singleton, List.length_append] at he hi ha hp
    have hl := ih hsl (by omega) (by omega) (by omega) (by omega)
    have hnil : ∀ k : Method, (valuesOf k l).length
        + (if c.method = k then [c.value] else []).length ≤ 1 → c.method = k →
        valuesOf k l = [] := by
      intro k hlen hk
      rw [if_pos hk] at hlen
      exact List.length_eq_zero.mp (by simpa using hlen)
    rw [chain_append l [c] _ (by rw [hl]), hl]
    simp only [MySuperBaseElementSelector.chain]
    rw [invoke_fragments l c.method c.value (fun a hal => hle a hal c (List.mem_singleton.mpr rfl))
      (hnil _ he) (hnil _ hi) (hnil _ ha) (hnil _ hp)]

/-- C1: for a first fragment made by its factory and further fragments chained
on it, the kinds in non-decreasing stage order, with at most one element, one
id, one attribute and one pseudo-element: no call throws, the builder holds each
rendering in its slot and `stringify()` returns the tag, `#id`, each class as
`.c`, `[attr]`, each pseudo-class as `:p` and `::pseudoElement`, in this order,
an absent kind rendered as the empty string. -/
theorem fluent_in_stage_order (first : Call) (rest : List Call)
    (hsorted : (first :: rest).Pairwise (fun a b => a.method.stage ≤ b.method.stage))
    (he : (valuesOf .element (first :: rest)).length ≤ 1)
    (hi : (valuesOf .id (first :: rest)).length ≤ 1)
    (ha : (valuesOf .attr (first :: rest)).length ≤ 1)
    (hp : (valuesOf .pseudoElement (first :: rest)).length ≤ 1) :
    cssSelectorBuilder.build first rest = .ok (fragments (first :: rest))
      ∧ cssSelectorBuilder.fluent first rest = .ok (rendering (first :: rest)) := by
  have hc := chain_fragments (first :: rest) hsorted he hi ha hp
  simp only [MySuperBaseElementSelector.chain, factory_thrown] at hc
  have hb : cssSelectorBuilder.build first rest = .ok (fragments (first :: rest)) := by
    simp only [cssSelectorBuilder.build, factory_eq, hc]
  refine ⟨hb, ?_⟩
  simp only [cssSelectorBuilder.fluent, hb, rendering_eq]

/-- Witness of C1: `element('a').attr('href$=".png"').pseudoClass('focus')`. -/
theorem fluent_in_stage_order_witness :
    cssSelectorBuilder.build ⟨.element, "a"⟩
        [⟨.attr, "href$=\".png\""⟩, ⟨.pseudoClass, "focus"⟩]
        = .ok (fragments [⟨.element, "a"⟩, ⟨.attr, "href$=\".png\""⟩, ⟨.pseudoClass, "focus"⟩])
      ∧ cssSelectorBuilder.fluent ⟨.element, "a"⟩
        [⟨.attr, "href$=\".png\""⟩, ⟨.pseudoClass, "focus"⟩]
        = .ok (rendering [⟨.element, "a"⟩, ⟨.attr, "href$=\".png\""⟩, ⟨.pseudoClass, "focus"⟩])
      ∧ rendering [⟨.element, "a"⟩, ⟨.attr, "href$=\".png\""⟩, ⟨.pseudoClass, "focus"⟩]
        = "a[href$=\".png\"]:focus" :=
  ⟨(fluent_in_stage_order ⟨.element, "a"⟩ [⟨.attr, "href$=\".png\""⟩, ⟨.pseudoClass, "focus"⟩]
      (by decide) (by decide) (by decide) (by decide) (by decide)).1,
    (fluent_in_stage_order ⟨.element, "a"⟩ [⟨.attr, "href$=\".png\""⟩, ⟨.pseudoClass, "focus"⟩]
      (by decide) (by decide) (by decide) (by decide) (by decide)).2, rfl⟩

/-! ## The combined selector holds strings -/

theorem Heap.invoke_keeps_combined (h : Heap) (r : Nat) (c : Call) (rc : Nat)
    (cs : CreateSelectors) (hrc : h[rc]? = some (Selector.combined cs)) :
    (h.invoke r c).1[rc]? = some (Selector.combined cs) := by
  unfold Heap.invoke
  split
  · rename_i s hs
    by_cases e : r = rc
    · subst e
      rw [hs] at hrc
      simp at hrc
    · simp only
      rw [List.getElem?_set_ne e]
      exact hrc
  · exact hrc
  · exact hrc

theorem Heap.session_keeps_combined (calls : List (Nat × Call)) (rc : Nat)
    (cs : CreateSelectors) :
    ∀ h : Heap, h[rc]? = some (Selector.combined cs) →
      (h.session calls)[rc]? = some (Selector.combined cs) := by
  induction calls with
  | nil => intro h hrc; exact hrc
  | cons x rest ih =>
    intro h hrc
    exact ih _ (Heap.invoke_keeps_combined h x.1 x.2 rc cs hrc)

/-- C10: `combine` on two references whose objects stringify to `s1` and `s2`
allocates a combined selector that stringifies to `s1`, the combinator between
two spaces, `s2`; after any later append calls on any objects of the store, the
operands included, it still stringifies to that string. -/
theorem combined_keeps_operand_strings (h : Heap) (r1 r2 : Nat) (c s1 s2 : String)
    (h1 : h.stringify r1 = some s1) (h2 : h.stringify r2 = some s2)
    (calls : List (Nat × Call)) :
    ∃ h' rc, h.combine r1 c r2 = some (h', rc)
      ∧ h'.stringify rc = some (s1 ++ " " ++ c ++ " " ++ s2)
      ∧ (h'.session calls).stringify rc = some (s1 ++ " " ++ c ++ " " ++ s2) := by
  unfold Heap.stringify at h1 h2
  obtain ⟨o1, ho1, hs1⟩ := Option.map_eq_some'.mp h1
  obtain ⟨o2, ho2, hs2⟩ := Option.map_eq_some'.mp h2
  have hnew : (h ++ [Selector.combined (cssSelectorBuilder.combine o1 c o2)])[h.length]?
      = some (Selector.combined (cssSelectorBuilder.combine o1 c o2)) := by
    simp
  refine ⟨h ++ [Selector.combined (cssSelectorBuilder.combine o1 c o2)], h.length, ?_, ?_, ?_⟩
  · simp only [Heap.combine, ho1, ho2]
  · unfold Heap.stringify
    rw [hnew, ← hs1, ← hs2]
    rfl
  · unfold Heap.stringify
    rw [Heap.session_keeps_combined calls h.length _ _ hnew, ← hs1, ← hs2]
    rfl

/-- Witness of C10: `a = element('a')`, `b = element('b')`, `combine(a, '>', b)`,
then `a.id('x')` and `b.class('y')`: the operands change, the combination does
not. -/
theorem combined_keeps_operand_strings_witness :
    (∃ h' rc, Heap.combine [.simple ⟨"a", "", "", "", "", ""⟩, .simple ⟨"b", "", "", "", "", ""⟩]
          0 ">" 1 = some (h', rc)
        ∧ h'.stringify rc = some ("a" ++ " " ++ ">" ++ " " ++ "b")
        ∧ (h'.session [(0, ⟨.id, "x"⟩), (1, ⟨.«class», "y"⟩)]).stringify rc
            = some ("a" ++ " " ++ ">" ++ " " ++ "b"))
      ∧ (Heap.session [.simple ⟨"a", "", "", "", "", ""⟩, .simple ⟨"b", "", "", "", "", ""⟩,
            .combined ⟨"a", "b", ">"⟩] [(0, ⟨.id, "x"⟩), (1, ⟨.«class», "y"⟩)])
          = [.simple ⟨"a", "#x", "", "", "", ""⟩, .simple ⟨"b", "", ".y", "", "", ""⟩,
            .combined ⟨"a", "b", ">"⟩] :=
  ⟨combined_keeps_operand_strings
    [.simple ⟨"a", "", "", "", "", ""⟩, .simple ⟨"b", "", "", "", "", ""⟩] 0 1 ">" "a" "b"
    rfl rfl [(0, ⟨.id, "x"⟩), (1, ⟨.«class», "y"⟩)], rfl⟩

/-! ## `stringify()` reads only -/

/-- C11: `stringify()` on a simple or a combined selector leaves every field of
the object as it was and returns the string of the fields; a second call
returns the same string and again leaves the fields as they were. -/
theorem stringify_read_only (s : Selector) :
    s.stringifyCall.1 = s
      ∧ s.stringifyCall.2 = s.stringify
      ∧ s.stringifyCall.1.stringifyCall.2 = s.stringifyCall.2
      ∧ s.stringifyCall.1.stringifyCall.1 = s := by
  cases s <;> exact ⟨rfl, rfl, rfl, rfl⟩

/-! ## The rectangle -/

theorem excessBits_small (fuel m : Nat) (h : m < 2 ^ 53) : excessBits fuel m = 0 := by
  cases fuel with
  | zero => rfl
  | succ f => simp only [excessBits, if_pos h]

theorem excessBits_fits (fuel : Nat) :
    ∀ m : Nat, m < 2 ^ (53 + fuel) → m / 2 ^ excessBits fuel m < 2 ^ 53 := by
  induction fuel with
  | zero => intro m h; simpa [excessBits] using h
  | succ f ih =>
    intro m h
    unfold excessBits
    split_ifs with hm
    · simpa using hm
    · have h2 : m / 2 < 2 ^ (53 + f) := by
        rw [Nat.div_lt_iff_lt_mul (by norm_num)]
        calc m < 2 ^ (53 + (f + 1)) := h
          _ = 2 ^ (53 + f) * 2 := by rw [← Nat.add_assoc, Nat.pow_succ]
      have := ih (m / 2) h2
      rwa [Nat.pow_succ, Nat.mul_comm, ← Nat.div_div_eq_div_mul]

/-- The search of `excessBits` with `m` halvings allowed always ends: what is
left of `m` fits in 53 bits. -/
theorem excessBits_self_fits (m : Nat) : m / 2 ^ excessBits m m < 2 ^ 53 := by
  apply excessBits_fits
  calc m < 2 ^ m := Nat.lt_two_pow m
    _ ≤ 2 ^ (53 + m) := Nat.pow_le_pow_right (by norm_num) (by omega)

/-- The search of `excessBits` does not go too far: when bits are dropped, what
is left of `m` has its 53rd bit set. -/
theorem excessBits_tight (fuel : Nat) :
    ∀ m : Nat, excessBits fuel m ≠ 0 → 2 ^ 52 ≤ m / 2 ^ excessBits fuel m := by
  induction fuel with
  | zero => intro m h; exact absurd rfl h
  | succ f ih =>
    intro m h
    unfold excessBits at h ⊢
    split_ifs at h ⊢ with hm
    · exact absurd rfl h
    · have hd : m / 2 ^ (excessBits f (m / 2) + 1) = m / 2 / 2 ^ excessBits f (m / 2) := by
        rw [Nat.pow_succ, Nat.mul_comm, Nat.div_div_eq_div_mul]
      rw [hd]
      by_cases he : excessBits f (m / 2) = 0
      · rw [he, Nat.pow_zero, Nat.div_one]
        omega
      · exact ih (m / 2) he

theorem roundMagnitude_small (m : Nat) (h : m < 2 ^ 53) : roundMagnitude m = m := by
  simp [roundMagnitude, excessBits_small m m h, Nat.mod_one]

theorem roundToDouble_small (n : Int) (h : n.natAbs < 2 ^ 53) : roundToDouble n = n := by
  unfold roundToDouble
  rw [roundMagnitude_small _ h]
  split_ifs with hn <;> omega

theorem multiply_small (a b : IntegerNumber) (h : (a.value * b.value).natAbs < 2 ^ 53) :
    multiply a b = .finite (a.value * b.value) := by
  have hb : (a.value * b.value).natAbs < overflowBound :=
    Nat.lt_trans h (by decide)
  unfold multiply
  rw [roundToDouble_small _ h, if_pos hb]

theorem multiply_eq_iff (a b : IntegerNumber) :
    multiply a b = .finite (a.value * b.value)
      ↔ (roundToDouble (a.value * b.value) = a.value * b.value
          ∧ (a.value * b.value).natAbs < overflowBound) := by
  unfold multiply
  split_ifs with hlt
  · constructor
    · intro e
      have hr : roundToDouble (a.value * b.value) = a.value * b.value :=
        ProductValue.finite.inj e
      exact ⟨hr, hr ▸ hlt⟩
    · rintro ⟨hr, -⟩
      rw [hr]
  · constructor
    · intro e
      exact absurd e (by simp)
    · rintro ⟨hr, hb⟩
      exact absurd (by rw [hr]; exact hb) hlt

/-- C12, refuted at `new Rectangle(94906267, 94906267)`: both fields hold
`94906267`, the product `9007199515875289` is not a binary64 number, and
`getArea()` returns `9007199515875288`. -/
theorem rectangle_getArea_rounds :
    wide.value = 94906267
      ∧ (Rectangle.constructor wide wide).width = wide
      ∧ (Rectangle.constructor wide wide).height = wide
      ∧ wide.value * wide.value = 9007199515875289
      ∧ (Rectangle.constructor wide wide).getArea = .finite 9007199515875288
      ∧ (Rectangle.constructor wide wide).getArea ≠ .finite (wide.value * wide.value) := by
  refine ⟨rfl, rfl, rfl, by decide, by decide, by decide⟩

/-- C12, amended: for numbers `w` and `h` with integer values,
`new Rectangle(w, h)` has `width = w` and `height = h`. For the fields as they
are when `getArea()` is called, as constructed or after `width`, `height` or
both are reassigned, `getArea()` returns their product exactly when that
product is a finite binary64 number, and so whenever it is below `2 ^ 53` in
absolute value. -/
theorem rectangle_getArea (w h w' h' : IntegerNumber) :
    (Rectangle.constructor w h).width = w
      ∧ (Rectangle.constructor w h).height = h
      ∧ (∀ r : Rectangle, r.getArea = .finite (r.width.value * r.height.value)
          ↔ (roundToDouble (r.width.value * r.height.value) = r.width.value * r.height.value
              ∧ (r.width.value * r.height.value).natAbs < overflowBound))
      ∧ ((w.value * h.value).natAbs < 2 ^ 53 →
          (Rectangle.constructor w h).getArea = .finite (w.value * h.value))
      ∧ ((w'.value * h.value).natAbs < 2 ^ 53 →
          ({ Rectangle.constructor w h with width := w' } : Rectangle).getArea
            = .finite (w'.value * h.value))
      ∧ ((w.value * h'.value).natAbs < 2 ^ 53 →
          ({ Rectangle.constructor w h with height := h' } : Rectangle).getArea
            = .finite (w.value * h'.value))
      ∧ ((w'.value * h'.value).natAbs < 2 ^ 53 →
          ({ Rectangle.constructor w h with width := w', height := h' } : Rectangle).getArea
            = .finite (w'.value * h'.value)) :=
  ⟨rfl, rfl, fun r => multiply_eq_iff r.width r.height,
    fun hp => multiply_small w h hp, fun hp => multiply_small w' h hp,
    fun hp => multiply_small w h' hp, fun hp => multiply_small w' h' hp⟩

/-- Witness of C12: `new Rectangle(10, 20)` has area 200; with `width`
reassigned to 20 the area is 400, with `height` reassigned to 10 it is 100. -/
theorem rectangle_getArea_witness :
    ten.value = 10 ∧ twenty.value = 20
      ∧ (Rectangle.constructor ten twenty).width = ten
      ∧ (Rectangle.constructor ten twenty).height = twenty
      ∧ (Rectangle.constructor ten twenty).getArea = .finite 200
      ∧ ({ Rectangle.constructor ten twenty with width := twenty } : Rectangle).getArea
          = .finite 400
      ∧ ({ Rectangle.constructor ten twenty with height := ten } : Rectangle).getArea
          = .finite 100
      ∧ ({ Rectangle.constructor ten twenty with width := twenty, height := ten }
          : Rectangle).getArea = .finite 200 :=
  ⟨rfl, rfl,
    (rectangle_getArea ten twenty twenty ten).1,
    (rectangle_getArea ten twenty twenty ten).2.1,
    (rectangle_getArea ten twenty twenty ten).2.2.2.1 (by decide),
    (rectangle_getArea ten twenty twenty ten).2.2.2.2.1 (by decide),
    (rectangle_getArea ten twenty twenty ten).2.2.2.2.2.1 (by decide),
    (rectangle_getArea ten twenty twenty ten).2.2.2.2.2.2 (by decide)⟩

/-! ## Associativity of nested combination -/

/-- C17: `combine(combine(A, c1, B), c2, C)` and `combine(A, c1, combine(B, c2, C))`
stringify to the same string. -/
theorem combine_stringify_assoc (A B C : Selector) (c1 c2 : String) :
    (cssSelectorBuilder.combine (.combined (cssSelectorBuilder.combine A c1 B)) c2 C).stringify
      = (cssSelectorBuilder.combine A c1
          (.combined (cssSelectorBuilder.combine B c2 C))).stringify := by
  simp only [cssSelectorBuilder.combine, CreateSelectors.constructor, Selector.stringify,
    CreateSelectors.stringify, String.append_assoc]

/-! ## Failed and successful appends -/

/-- C13: the order check comes before the duplicate check. In every builder
state, the tag set or not, in which a slot after the tag has content,
`element(v)` throws the order error and not the duplicate error; in every
state, the id set or not, in which a slot after the id has content, `id(v)`
throws the order error and not the duplicate error. -/
theorem order_check_before_duplicate_check (self : MySuperBaseElementSelector) (v : String) :
    ((∃ k : Method, Method.element.stage < k.stage ∧ self.slot k ≠ "") →
        (self.element v).thrown = some orderError
          ∧ (self.element v).thrown ≠ some duplicateError)
      ∧ ((∃ k : Method, Method.id.stage < k.stage ∧ self.slot k ≠ "") →
        (self.id v).thrown = some orderError
          ∧ (self.id v).thrown ≠ some duplicateError) := by
  have hne : some orderError ≠ some duplicateError := by decide
  constructor
  · rintro ⟨k, hk, hs⟩
    have h : (self.element v).thrown = some orderError := by
      cases k <;> simp [Method.stage] at hk <;>
        simp only [MySuperBaseElementSelector.slot] at hs <;>
        simp [MySuperBaseElementSelector.element, hs]
    exact ⟨h, h ▸ hne⟩
  · rintro ⟨k, hk, hs⟩
    have h : (self.id v).thrown = some orderError := by
      cases k <;> simp [Method.stage] at hk <;>
        simp only [MySuperBaseElementSelector.slot] at hs <;>
        simp [MySuperBaseElementSelector.id, hs]
    exact ⟨h, h ▸ hne⟩

/-- Witness of C13: `id('a').class('b').id('c')`, and `element('a').id('b').element('c')`. -/
theorem order_check_before_duplicate_check_witness :
    cssSelectorBuilder.build ⟨.id, "a"⟩ [⟨.«class», "b"⟩] = .ok ⟨"", "#a", ".b", "", "", ""⟩
      ∧ cssSelectorBuilder.build ⟨.element, "a"⟩ [⟨.id, "b"⟩] = .ok ⟨"a", "#b", "", "", "", ""⟩
      ∧ ((MySuperBaseElementSelector.element ⟨"a", "#b", "", "", "", ""⟩ "c").thrown
            = some orderError
          ∧ (MySuperBaseElementSelector.element ⟨"a", "#b", "", "", "", ""⟩ "c").thrown
            ≠ some duplicateError)
      ∧ ((MySuperBaseElementSelector.id ⟨"", "#a", ".b", "", "", ""⟩ "c").thrown
            = some orderError
          ∧ (MySuperBaseElementSelector.id ⟨"", "#a", ".b", "", "", ""⟩ "c").thrown
            ≠ some duplicateError) :=
  ⟨rfl, rfl,
    (order_check_before_duplicate_check ⟨"a", "#b", "", "", "", ""⟩ "c").1
      ⟨.id, by decide, by decide⟩,
    (order_check_before_duplicate_check ⟨"", "#a", ".b", "", "", ""⟩ "c").2
      ⟨.«class», by decide, by decide⟩⟩

theorem invoke_thrown_cases (self : MySuperBaseElementSelector) (m : Method) (v : String)
    (h : (self.invoke m v).thrown ≠ none) :
    (self.invoke m v).thrown = some orderError
      ∨ (self.invoke m v).thrown = some duplicateError := by
  cases m <;>
    simp only [MySuperBaseElementSelector.invoke, MySuperBaseElementSelector.element,
      MySuperBaseElementSelector.id, MySuperBaseElementSelector.«class»,
      MySuperBaseElementSelector.attr, MySuperBaseElementSelector.pseudoClass,
      MySuperBaseElementSelector.pseudoElement] at h ⊢ <;>
    split_ifs at h ⊢ <;> simp_all

/-- C14: an append call that throws, of any kind, with any argument, in any
builder state, throws the order error or the duplicate error and leaves all
six slots as they were, so `stringify()` returns the same string as before. -/
theorem failed_append_atomic (self : MySuperBaseElementSelector) (m : Method) (v : String)
    (h : (self.invoke m v).thrown ≠ none) :
    ((self.invoke m v).thrown = some orderError
        ∨ (self.invoke m v).thrown = some duplicateError)
      ∧ (self.invoke m v).self = self
      ∧ (∀ k : Method, (self.invoke m v).self.slot k = self.slot k)
      ∧ (self.invoke m v).self.stringify = self.stringify := by
  have hself : (self.invoke m v).self = self := by
    cases ht : (self.invoke m v).thrown with
    | none => exact absurd ht h
    | some e => exact invoke_thrown_self self m v e ht
  refine ⟨invoke_thrown_cases self m v h, hself, ?_, ?_⟩
  · intro k; rw [hself]
  · rw [hself]

/-- Witness of C14: `id('x')` on the builder of `element('a').id('m').class('c')`. -/
theorem failed_append_atomic_witness :
    ((MySuperBaseElementSelector.invoke ⟨"a", "#m", ".c", "", "", ""⟩ .id "x").thrown
          = some orderError
        ∨ (MySuperBaseElementSelector.invoke ⟨"a", "#m", ".c", "", "", ""⟩ .id "x").thrown
          = some duplicateError)
      ∧ (MySuperBaseElementSelector.invoke ⟨"a", "#m", ".c", "", "", ""⟩ .id "x").self
          = ⟨"a", "#m", ".c", "", "", ""⟩
      ∧ (∀ k : Method,
          (MySuperBaseElementSelector.invoke ⟨"a", "#m", ".c", "", "", ""⟩ .id "x").self.slot k
            = MySuperBaseElementSelector.slot ⟨"a", "#m", ".c", "", "", ""⟩ k)
      ∧ (MySuperBaseElementSelector.invoke ⟨"a", "#m", ".c", "", "", ""⟩ .id "x").self.stringify
          = MySuperBaseElementSelector.stringify ⟨"a", "#m", ".c", "", "", ""⟩ :=
  failed_append_atomic ⟨"a", "#m", ".c", "", "", ""⟩ .id "x" (by decide)

theorem invoke_other_slots (self : MySuperBaseElementSelector) (m : Method) (v : String)
    (k : Method) (hk : k ≠ m) : (self.invoke m v).self.slot k = self.slot k := by
  cases m <;> cases k <;>
    simp only [MySuperBaseElementSelector.invoke, MySuperBaseElementSelector.element,
      MySuperBaseElementSelector.id, MySuperBaseElementSelector.«class»,
      MySuperBaseElementSelector.attr, MySuperBaseElementSelector.pseudoClass,
      MySuperBaseElementSelector.pseudoElement, MySuperBaseElementSelector.slot] <;>
    split_ifs <;> simp_all

theorem invoke_own_slot (self : MySuperBaseElementSelector) (m : Method) (v : String)
    (h : (self.invoke m v).thrown = none) :
    (self.invoke m v).self.slot m = self.slot m ++
      (match m with
        | .element => v
        | .id => "#" ++ v
        | .«class» => "." ++ v
        | .attr => if self.attrString = "" then "[" ++ v ++ "]" else "." ++ v
        | .pseudoClass => ":" ++ v
        | .pseudoElement => "::" ++ v) := by
  cases m <;>
    simp only [MySuperBaseElementSelector.invoke, MySuperBaseElementSelector.element,
      MySuperBaseElementSelector.id, MySuperBaseElementSelector.«class»,
      MySuperBaseElementSelector.attr, MySuperBaseElementSelector.pseudoClass,
      MySuperBaseElementSelector.pseudoElement, MySuperBaseElementSelector.slot,
      isUndefined] at h ⊢ <;>
    split_ifs at h ⊢ <;> simp_all [String.append_assoc]

/-- C15: an append call of kind `m` that returns leaves the five other slots
as they were, and the new content of slot `m` is the old content followed by a
suffix; for a class the suffix is `.` and the value, for a pseudo-class `:` and
the value. -/
theorem successful_append_frame (self : MySuperBaseElementSelector) (m : Method) (v : String)
    (h : (self.invoke m v).thrown = none) :
    (∀ k : Method, k ≠ m → (self.invoke m v).self.slot k = self.slot k)
      ∧ (∃ t : String, (self.invoke m v).self.slot m = self.slot m ++ t)
      ∧ (m = Method.«class» →
          (self.invoke m v).self.classString = self.classString ++ "." ++ v)
      ∧ (m = Method.pseudoClass →
          (self.invoke m v).self.pseudoClassString = self.pseudoClassString ++ ":" ++ v) := by
  refine ⟨fun k hk => invoke_other_slots self m v k hk, ⟨_, invoke_own_slot self m v h⟩, ?_, ?_⟩
  · intro e
    subst e
    have := invoke_own_slot self .«class» v h
    simpa [MySuperBaseElementSelector.slot, String.append_assoc] using this
  · intro e
    subst e
    have := invoke_own_slot self .pseudoClass v h
    simpa [MySuperBaseElementSelector.slot, String.append_assoc] using this

/-- Witness of C15: `class('d')` on the builder of `element('a').class('c')`. -/
theorem successful_append_frame_witness :
    (MySuperBaseElementSelector.invoke ⟨"a", "", ".c", "", "", ""⟩ .«class» "d")
        = ⟨⟨"a", "", ".c.d", "", "", ""⟩, none⟩
      ∧ ((∀ k : Method, k ≠ Method.«class» →
          (MySuperBaseElementSelector.invoke ⟨"a", "", ".c", "", "", ""⟩ .«class» "d").self.slot k
            = MySuperBaseElementSelector.slot ⟨"a", "", ".c", "", "", ""⟩ k)
        ∧ (∃ t : String,
          (MySuperBaseElementSelector.invoke ⟨"a", "", ".c", "", "", ""⟩ .«class»
            "d").self.slot .«class»
            = MySuperBaseElementSelector.slot ⟨"a", "", ".c", "", "", ""⟩ .«class» ++ t)
        ∧ (Method.«class» = Method.«class» →
          (MySuperBaseElementSelector.invoke ⟨"a", "", ".c", "", "", ""⟩ .«class»
            "d").self.classString = ".c" ++ "." ++ "d")
        ∧ (Method.«class» = Method.pseudoClass →
          (MySuperBaseElementSelector.invoke ⟨"a", "", ".c", "", "", ""⟩ .«class»
            "d").self.pseudoClassString = "" ++ ":" ++ "d")) :=
  ⟨rfl, successful_append_frame ⟨"a", "", ".c", "", "", ""⟩ .«class» "d" rfl⟩

/-! ## The invariant of reachable builders -/

theorem marked_append (p x y : String) (hx : x = "" ∨ ∃ t, x = p ++ t)
    (hy : x = "" → ∃ t, y = p ++ t) : ∃ t, x ++ y = p ++ t := by
  rcases hx with hx | ⟨t, ht⟩
  · obtain ⟨t, ht⟩ := hy hx
    exact ⟨t, by rw [hx, String.empty_append, ht]⟩
  · exact ⟨t ++ y, by rw [ht, String.append_assoc]⟩

theorem invoke_marked (self : MySuperBaseElementSelector) (m : Method) (v : String)
    (h : ∀ k : Method, self.slot k = "" ∨ ∃ t, self.slot k = k.mark ++ t) :
    ∀ k : Method, (self.invoke m v).self.slot k = ""
      ∨ ∃ t, (self.invoke m v).self.slot k = k.mark ++ t := by
  intro k
  cases ht : (self.invoke m v).thrown with
  | some e => rw [invoke_thrown_self self m v e ht]; exact h k
  | none =>
    by_cases hk : k = m
    · subst hk
      right
      rw [invoke_own_slot self k v ht]
      apply marked_append _ _ _ (h k)
      intro hempty
      cases k
      · exact ⟨v, (String.empty_append v).symm⟩
      · exact ⟨v, rfl⟩
      · exact ⟨v, rfl⟩
      · simp only [MySuperBaseElementSelector.slot] at hempty
        exact ⟨v ++ "]", by simp [hempty, Method.mark, String.append_assoc]⟩
      · exact ⟨v, rfl⟩
      · exact ⟨v, rfl⟩
    · rw [invoke_other_slots self m v k hk]
      exact h k

theorem foldl_sessionStep_marked (calls : List Call) :
    ∀ acc : MySuperBaseElementSelector × List Call,
      (∀ k : Method, acc.1.slot k = "" ∨ ∃ t, acc.1.slot k = k.mark ++ t) →
      ∀ k : Method, (calls.foldl MySuperBaseElementSelector.sessionStep acc).1.slot k = ""
        ∨ ∃ t, (calls.foldl MySuperBaseElementSelector.sessionStep acc).1.slot k
            = k.mark ++ t := by
  induction calls with
  | nil => intro acc h; exact h
  | cons c rest ih =>
    intro acc h
    rw [List.foldl_cons]
    apply ih
    have hs : (MySuperBaseElementSelector.sessionStep acc c).1
        = (acc.1.invoke c.method c.value).self := by
      unfold MySuperBaseElementSelector.sessionStep
      cases (acc.1.invoke c.method c.value).thrown <;> rfl
    rw [hs]
    exact invoke_marked acc.1 c.method c.value h

theorem foldl_sessionStep_slot_ne_empty (calls : List Call) (k : Method)
    (hk : k ≠ Method.element) :
    ∀ acc : MySuperBaseElementSelector × List Call, acc.1.slot k ≠ "" →
      (calls.foldl MySuperBaseElementSelector.sessionStep acc).1.slot k ≠ "" := by
  induction calls with
  | nil => intro acc h; exact h
  | cons c rest ih =>
    intro acc h
    rw [List.foldl_cons]
    apply ih
    have hs : (MySuperBaseElementSelector.sessionStep acc c).1
        = (acc.1.invoke c.method c.value).self := by
      unfold MySuperBaseElementSelector.sessionStep
      cases (acc.1.invoke c.method c.value).thrown <;> rfl
    rw [hs]
    exact (invoke_slot_ne_empty_iff acc.1 c.method c.value k hk).mpr (Or.inl h)

/-- C16: in a builder made by a factory and used in any session, calls that
throw included, the id slot is empty or starts with `#`, the class slot with
`.`, the attribute slot with `[`, the pseudo-class slot with `:`, the
pseudo-element slot with `::`; each of the five slots is not empty exactly when
a call of its kind has returned without throwing; and a slot that is not empty
is still not empty after any further calls. -/
theorem reachable_slots_invariant (first : Call) (rest : List Call)
    (b : MySuperBaseElementSelector) (hb : cssSelectorBuilder.factory first = .ok b) :
    ((b.session rest).1.idString = "" ∨ ∃ t, (b.session rest).1.idString = "#" ++ t)
      ∧ ((b.session rest).1.classString = ""
          ∨ ∃ t, (b.session rest).1.classString = "." ++ t)
      ∧ ((b.session rest).1.attrString = ""
          ∨ ∃ t, (b.session rest).1.attrString = "[" ++ t)
      ∧ ((b.session rest).1.pseudoClassString = ""
          ∨ ∃ t, (b.session rest).1.pseudoClassString = ":" ++ t)
      ∧ ((b.session rest).1.pseudoElementString = ""
          ∨ ∃ t, (b.session rest).1.pseudoElementString = "::" ++ t)
      ∧ (∀ k : Method, k ≠ Method.element →
          ((b.session rest).1.slot k ≠ ""
            ↔ ∃ x ∈ first :: (b.session rest).2, x.method = k))
      ∧ (∀ (more : List Call) (k : Method), k ≠ Method.element →
          (b.session rest).1.slot k ≠ "" → (b.session (rest ++ more)).1.slot k ≠ "") := by
  have hb' : b = ((MySuperBaseElementSelector.mk "" "" "" "" "" "").invoke
      first.method first.value).self := by
    rw [factory_eq] at hb
    exact (Except.ok.inj hb).symm
  have h0 : ∀ k : Method, b.slot k = "" ∨ ∃ t, b.slot k = k.mark ++ t := by
    rw [hb']
    apply invoke_marked
    intro k
    left
    cases k <;> rfl
  have hm := foldl_sessionStep_marked rest (b, []) h0
  refine ⟨hm .id, hm .«class», hm .attr, hm .pseudoClass, hm .pseudoElement,
    fun k hk => session_slot_ne_empty_iff first rest b hb k hk, ?_⟩
  intro more k hk hne
  unfold MySuperBaseElementSelector.session
  rw [List.foldl_append]
  exact foldl_sessionStep_slot_ne_empty more k hk _ hne

/-- Witness of C16: the session `element('a')`, `id('m')`, `element('b')` (which
throws), `class('c')`. -/
theorem reachable_slots_invariant_witness :
    cssSelectorBuilder.factory ⟨.element, "a"⟩ = .ok ⟨"a", "", "", "", "", ""⟩
      ∧ (MySuperBaseElementSelector.session ⟨"a", "", "", "", "", ""⟩
        [⟨.id, "m"⟩, ⟨.element, "b"⟩, ⟨.«class», "c"⟩])
        = (⟨"a", "#m", ".c", "", "", ""⟩, [⟨.id, "m"⟩, ⟨.«class», "c"⟩])
      ∧ ((MySuperBaseElementSelector.session ⟨"a", "", "", "", "", ""⟩
            [⟨.id, "m"⟩, ⟨.element, "b"⟩, ⟨.«class», "c"⟩]).1.idString = ""
          ∨ ∃ t, (MySuperBaseElementSelector.session ⟨"a", "", "", "", "", ""⟩
            [⟨.id, "m"⟩, ⟨.element, "b"⟩, ⟨.«class», "c"⟩]).1.idString = "#" ++ t)
      ∧ (∀ k : Method, k ≠ Method.element →
          ((MySuperBaseElementSelector.session ⟨"a", "", "", "", "", ""⟩
              [⟨.id, "m"⟩, ⟨.element, "b"⟩, ⟨.«class», "c"⟩]).1.slot k ≠ ""
            ↔ ∃ x ∈ (⟨.element, "a"⟩ : Call) ::
                (MySuperBaseElementSelector.session ⟨"a", "", "", "", "", ""⟩
                  [⟨.id, "m"⟩, ⟨.element, "b"⟩, ⟨.«class», "c"⟩]).2, x.method = k)) :=
  ⟨rfl, rfl,
    (reachable_slots_invariant ⟨.element, "a"⟩
      [⟨.id, "m"⟩, ⟨.element, "b"⟩, ⟨.«class», "c"⟩] ⟨"a", "", "", "", "", ""⟩ rfl).1,
    (reachable_slots_invariant ⟨.element, "a"⟩
      [⟨.id, "m"⟩, ⟨.element, "b"⟩, ⟨.«class», "c"⟩] ⟨"a", "", "", "", "", ""⟩ rfl).2.2.2.2.2.1⟩

end ObjectsTasks
